import Mathlib

/-!
Verification of the disaster-record merger and the per-source normalizers of a
disaster-tracking web application.  The TypeScript services are shallowly
embedded: JavaScript numbers are modelled by exact rationals (coordinates,
magnitudes) and integers (millisecond timestamps, person counts), the
trigonometric haversine distance by a real-valued function, JavaScript string
operations (toLowerCase, includes, trim) by character-list operations, and
optional or falsy-checked fields by Option types.  NaN values and
locale-dependent string rendering are outside the model; date and number
formatting used only inside free-text summaries is passed in as an explicit
rendering parameter.
-/

/-! ## JavaScript string semantics helpers -/

/-- Model of JavaScript String.prototype.toLowerCase (ASCII case folding). -/
def jsToLower (s : String) : String := String.mk (s.data.map Char.toLower)

/-- Model of JavaScript String.prototype.includes: substring containment. -/
def jsIncludes (s pat : String) : Bool := decide (pat.data <:+: s.data)

/-- Model of JavaScript String.prototype.trim: strip surrounding whitespace. -/
def jsTrim (s : String) : String :=
  String.mk (((s.data.dropWhile Char.isWhitespace).reverse.dropWhile
    Char.isWhitespace).reverse)

/-- Truthiness of an optional string: undefined and the empty string are falsy. -/
def truthyStr : Option String → Bool
  | none => false
  | some s => decide (s ≠ "")

/-- Truthiness of an optional number: undefined and zero are falsy
(NaN is outside the model). -/
def truthyNum : Option ℚ → Bool
  | none => false
  | some q => decide (q ≠ 0)

/-! ## Data model: types/disaster.ts -/

/-- DonationLink from types/disaster.ts. -/
structure DonationLink where
  organization : String
  url : String
  description : String
  deriving DecidableEq

/-- DisasterLocation from types/disaster.ts.  The category and severity string
unions of the TypeScript source are modelled as plain strings, as they are at
runtime; Date values are modelled by their millisecond epoch time. -/
structure DisasterLocation where
  id : String
  name : String
  type : String
  latitude : ℚ
  longitude : ℚ
  date : ℤ
  severity : String
  affectedPeople : ℤ
  summary : String
  donationLinks : List DonationLink
  source : Option String
  sourceUrl : Option String
  imageUrl : Option String
  magnitude : Option ℚ
  originalId : Option String
  deriving DecidableEq

/-! ## DisasterMerger (services/disasterMerger.ts) -/

/-- Merger statistics record from disasterMerger.ts.  The two JavaScript
objects used as maps are modelled as insertion-ordered association lists. -/
structure MergerStats where
  totalEvents : Nat
  duplicatesRemoved : Nat
  sourceBreakdown : List (String × Nat)
  typeBreakdown : List (String × Nat)
  deriving DecidableEq

/-- Result of DisasterMerger.mergeDisasters. -/
structure MergeResult where
  disasters : List DisasterLocation
  stats : MergerStats
  deriving DecidableEq

/-- Model of JavaScript Math.atan2 on non-NaN inputs. -/
noncomputable def atan2 (y x : ℝ) : ℝ :=
  if 0 < x then Real.arctan (y / x)
  else if x < 0 then
    (if 0 ≤ y then Real.arctan (y / x) + Real.pi else Real.arctan (y / x) - Real.pi)
  else if 0 < y then Real.pi / 2
  else if y < 0 then -(Real.pi / 2)
  else 0

/-- DisasterMerger.calculateDistance: haversine great-circle distance in
kilometers on a sphere of radius 6371 km. -/
noncomputable def calculateDistance (lat1 lon1 lat2 lon2 : ℚ) : ℝ :=
  let R : ℝ := 6371
  let dLat : ℝ := ((lat2 : ℝ) - (lat1 : ℝ)) * Real.pi / 180
  let dLon : ℝ := ((lon2 : ℝ) - (lon1 : ℝ)) * Real.pi / 180
  let a : ℝ :=
    Real.sin (dLat / 2) * Real.sin (dLat / 2) +
    Real.cos ((lat1 : ℝ) * Real.pi / 180) * Real.cos ((lat2 : ℝ) * Real.pi / 180) *
    Real.sin (dLon / 2) * Real.sin (dLon / 2)
  let c : ℝ := 2 * atan2 (Real.sqrt a) (Real.sqrt (1 - a))
  R * c

/-- DisasterMerger.calculateTimeDifference: absolute difference of the two
millisecond timestamps, in hours. -/
def calculateTimeDifference (date1 date2 : ℤ) : ℚ :=
  |((date2 - date1 : ℤ) : ℚ)| / (1000 * 60 * 60)

/-- DisasterMerger.areDuplicates: same-source records never merge, categories
must agree, and distance and time difference must lie within the
category-specific thresholds chosen by the switch on the first record's type. -/
noncomputable def areDuplicates (d1 d2 : DisasterLocation) : Bool :=
  if d1.source = d2.source then false
  else if d1.type ≠ d2.type then false
  else
    let distance := calculateDistance d1.latitude d1.longitude d2.latitude d2.longitude
    let timeDiff := calculateTimeDifference d1.date d2.date
    let thresholds : ℚ × ℚ :=
      if d1.type = "earthquake" then (50, 24)
      else if d1.type = "volcano" then (20, 168)
      else if d1.type = "wildfire" then (100, 72)
      else if d1.type = "hurricane" then (200, 48)
      else if d1.type = "storm" then (200, 48)
      else if d1.type = "flood" then (100, 72)
      else (50, 48)
    decide (distance ≤ (thresholds.1 : ℝ)) && decide (timeDiff ≤ thresholds.2)

/-- DisasterMerger.calculateInformationScore. -/
def calculateInformationScore (d : DisasterLocation) : Nat :=
  (if jsTrim d.name ≠ "" then 1 else 0) +
  (if jsTrim d.summary ≠ "" then 2 else 0) +
  (if 0 < d.affectedPeople then 1 else 0) +
  (if truthyNum d.magnitude then 1 else 0) +
  (if truthyStr d.sourceUrl then 1 else 0) +
  (if truthyStr d.imageUrl then 1 else 0) +
  (if d.donationLinks ≠ [] then 2 else 0) +
  (if 50 < d.summary.length then 1 else 0) +
  (if 100 < d.summary.length then 1 else 0)

/-- Source priority lookup of DisasterMerger.chooseBetterRecord: USGS 3,
NASA EONET 2, EM-DAT 1, anything else (including a missing source) 0. -/
def sourcePriorityOf (s : String) : Nat :=
  if s = "USGS" then 3
  else if s = "NASA EONET" then 2
  else if s = "EM-DAT" then 1
  else 0

/-- DisasterMerger.chooseBetterRecord. -/
def chooseBetterRecord (d1 d2 : DisasterLocation) : DisasterLocation :=
  let priority1 := sourcePriorityOf (d1.source.getD "")
  let priority2 := sourcePriorityOf (d2.source.getD "")
  if priority1 = priority2 then
    (if calculateInformationScore d2 ≤ calculateInformationScore d1 then d1 else d2)
  else if priority2 < priority1 then d1 else d2

/-- Inner loop of DisasterMerger.mergeDisasters: scan the records after the
current anchor, skipping already-processed ids, collecting the ids of records
that pairwise-duplicate the anchor and folding chooseBetterRecord over them.
The duplicate test is always made against the fixed anchor record. -/
noncomputable def scanDuplicates (current : DisasterLocation)
    (rest : List DisasterLocation) (processed : List String)
    (best : DisasterLocation) : DisasterLocation × List String :=
  match rest with
  | [] => (best, [])
  | d :: ds =>
    if processed.contains d.id then scanDuplicates current ds processed best
    else if areDuplicates current d then
      let r := scanDuplicates current ds processed (chooseBetterRecord best d)
      (r.1, d.id :: r.2)
    else scanDuplicates current ds processed best

/-- Outer loop of DisasterMerger.mergeDisasters: returns the unique
representatives (in anchor order) and the duplicates-removed count. -/
noncomputable def mergeAux :
    List DisasterLocation → List String → List DisasterLocation × Nat
  | [], _ => ([], 0)
  | d :: ds, processed =>
    if processed.contains d.id then mergeAux ds processed
    else
      let s := scanDuplicates d ds processed d
      let r := mergeAux ds (processed ++ d.id :: s.2)
      (s.1 :: r.1, r.2 + s.2.length)

/-- Increment of a key in a JavaScript-object-as-map, keeping insertion order. -/
def bump (m : List (String × Nat)) (k : String) : List (String × Nat) :=
  if m.any (fun p => p.1 = k) then
    m.map (fun p => if p.1 = k then (p.1, p.2 + 1) else p)
  else m ++ [(k, 1)]

/-- Source key used for the statistics breakdown: the source tag, or
"Unknown" when the field is missing or empty. -/
def sourceKeyOf (d : DisasterLocation) : String :=
  match d.source with
  | none => "Unknown"
  | some s => if s = "" then "Unknown" else s

/-- DisasterMerger.mergeDisasters: flatten the input arrays, record the
statistics, deduplicate with the anchor-scan loop, and sort the unique
records by date, most recent first. -/
noncomputable def mergeDisasters (disasterArrays : List (List DisasterLocation)) :
    MergeResult :=
  let allDisasters := disasterArrays.flatten
  let stats0 : MergerStats :=
    { totalEvents := allDisasters.length
      duplicatesRemoved := 0
      sourceBreakdown := []
      typeBreakdown := [] }
  let stats1 := allDisasters.foldl
    (fun st d =>
      { st with
        sourceBreakdown := bump st.sourceBreakdown (sourceKeyOf d)
        typeBreakdown := bump st.typeBreakdown d.type })
    stats0
  let r := mergeAux allDisasters []
  let uniqueDisasters := r.1.mergeSort (fun a b => decide (b.date ≤ a.date))
  { disasters := uniqueDisasters
    stats := { stats1 with duplicatesRemoved := r.2 } }

/-- DisasterMerger.validateDisaster, relative to the processing time now
(milliseconds).  The NaN checks of the source have no counterpart on exact
numbers and a Date object is always truthy, so those branches never fire
in the model. -/
def validateDisaster (now : ℤ) (d : DisasterLocation) : Bool :=
  if d.id = "" ∨ d.name = "" ∨ d.type = "" then false
  else if 90 < |d.latitude| ∨ 180 < |d.longitude| then false
  else if now + 7 * 24 * 60 * 60 * 1000 < d.date then false
  else true

/-- DisasterMerger.cleanDisasters. -/
def cleanDisasters (now : ℤ) (disasters : List DisasterLocation) :
    List DisasterLocation :=
  disasters.filter (fun d => validateDisaster now d)

/-- DisasterMerger.mergeSources: validate each source list, then merge. -/
noncomputable def mergeSources (now : ℤ)
    (emdatDisasters eonetDisasters usgsDisasters : List DisasterLocation) :
    MergeResult :=
  mergeDisasters
    [cleanDisasters now emdatDisasters,
     cleanDisasters now eonetDisasters,
     cleanDisasters now usgsDisasters]

/-! ## USGSService (seismic normalizer) -/

/-- USGSEarthquakeProperties from types/apiTypes.ts, restricted to the fields
the service reads.  Nullable fields are Option; mag and time are required by
the interface but checked for truthiness by the validator. -/
structure USGSEarthquakeProperties where
  mag : ℚ
  place : String
  time : ℤ
  url : String
  felt : Option ℤ
  alert : Option String
  tsunami : ℤ
  title : String
  deriving DecidableEq

/-- USGSEarthquakeFeature: GeoJSON feature with coordinates
longitude, latitude, depth. -/
structure USGSEarthquakeFeature where
  id : String
  coordinates : List ℚ
  properties : USGSEarthquakeProperties
  deriving DecidableEq

/-- USGSService.calculateSeverity: thresholds on the magnitude. -/
def usgsCalculateSeverity (magnitude : ℚ) : String :=
  if 8 ≤ magnitude then "critical"
  else if 7 ≤ magnitude then "high"
  else if 6 ≤ magnitude then "high"
  else if 5.5 ≤ magnitude then "moderate"
  else if 5 ≤ magnitude then "moderate"
  else "low"

/-- USGSService.getAffectedPeople: the seismic feed carries no impact data,
so the count is never estimated. -/
def usgsGetAffectedPeople : ℤ := 0

/-- USGSService.generateSummary.  Date and number rendering
(toLocaleDateString, toFixed, template interpolation) is environment
dependent and passed in as fmtDate and fmtNum. -/
def usgsGenerateSummary (fmtDate : ℤ → String) (fmtNum : ℚ → String)
    (feature : USGSEarthquakeFeature) : String :=
  let props := feature.properties
  let parts : List String :=
    ["Magnitude " ++ fmtNum props.mag ++ " earthquake"]
    ++ (if props.place ≠ "" then [props.place] else [])
    ++ ["on " ++ fmtDate props.time]
    ++ ["at " ++ fmtNum (feature.coordinates.getD 2 0) ++ " km depth"]
    ++ (if props.tsunami = 1 then ["(Tsunami warning issued)"] else [])
    ++ (match props.alert with
        | some "green" => ["Alert: Low impact expected"]
        | some "yellow" => ["Alert: Moderate impact expected"]
        | some "orange" => ["Alert: Significant impact expected"]
        | some "red" => ["Alert: Extreme impact expected"]
        | _ => [])
    ++ (match props.felt with
        | some fl => if 0 < fl then ["Felt by " ++ fmtNum (fl : ℚ) ++ " people"] else []
        | none => [])
  String.intercalate " " parts ++ "."

/-- USGSService.isValidEarthquake. -/
def usgsIsValidEarthquake (feature : USGSEarthquakeFeature) : Bool :=
  match feature.coordinates with
  | lon :: lat :: _depth :: _ =>
    if 90 < |lat| ∨ 180 < |lon| then false
    else if feature.properties.mag = 0 then false
    else if feature.properties.time = 0 then false
    else if feature.properties.place = "" ∧ feature.properties.title = "" then false
    else true
  | _ => false

/-- USGSService.convertToDisasterLocation. -/
def usgsConvertToDisasterLocation (fmtDate : ℤ → String) (fmtNum : ℚ → String)
    (feature : USGSEarthquakeFeature) : Option DisasterLocation :=
  if usgsIsValidEarthquake feature then
    match feature.coordinates with
    | longitude :: latitude :: _ =>
      let props := feature.properties
      some
        { id := "usgs-" ++ feature.id
          originalId := some feature.id
          name :=
            if props.title ≠ "" then props.title
            else if props.place ≠ "" then props.place
            else "M" ++ fmtNum props.mag ++ " Earthquake"
          type := "earthquake"
          latitude := latitude
          longitude := longitude
          date := props.time
          severity := usgsCalculateSeverity props.mag
          affectedPeople := usgsGetAffectedPeople
          summary := usgsGenerateSummary fmtDate fmtNum feature
          donationLinks := []
          source := some "USGS"
          sourceUrl := some props.url
          imageUrl := none
          magnitude := some props.mag }
    | _ => none
  else none

/-! ## EONETService (natural-event-feed normalizer) -/

/-- Category entry of an EONET event. -/
structure EONETCategory where
  id : String
  title : String
  deriving DecidableEq

/-- Source entry of an EONET event. -/
structure EONETSource where
  id : String
  url : String
  deriving DecidableEq

/-- Geometry coordinates: a point or a polygon. -/
inductive EONETCoordinates where
  | point (coords : List ℚ)
  | polygon (rings : List (List ℚ))
  deriving DecidableEq

/-- Geometry entry of an EONET event; the date is the parsed instant of the
ISO date string. -/
structure EONETGeometry where
  magnitudeValue : Option ℚ
  magnitudeUnit : Option String
  date : ℤ
  type : String
  coordinates : EONETCoordinates
  deriving DecidableEq

/-- EONETEvent from types/apiTypes.ts; closed is the parsed close instant
when present and truthy. -/
structure EONETEvent where
  id : String
  title : String
  description : Option String
  link : String
  closed : Option ℤ
  categories : List EONETCategory
  sources : List EONETSource
  geometry : List EONETGeometry
  deriving DecidableEq

/-- EONETService.mapCategoryToType: ordered keyword matching on the first
category title, lower-cased. -/
def mapCategoryToType (categories : List EONETCategory) : String :=
  match categories with
  | [] => "other"
  | c :: _ =>
    let category := jsToLower c.title
    if jsIncludes category "wildfire" || jsIncludes category "fire" then "wildfire"
    else if jsIncludes category "flood" then "flood"
    else if jsIncludes category "storm" || jsIncludes category "cyclone" ||
      jsIncludes category "hurricane" || jsIncludes category "typhoon" then "hurricane"
    else if jsIncludes category "drought" then "drought"
    else if jsIncludes category "heat" || jsIncludes category "temperature" then "heatwave"
    else if jsIncludes category "earthquake" || jsIncludes category "seismic" then "earthquake"
    else if jsIncludes category "volcano" then "volcano"
    else if jsIncludes category "snow" || jsIncludes category "ice" then "storm"
    else "other"

/-- Active duration in days used by EONETService.calculateSeverity: close
instant (or now for open events) minus the first geometry entry's date.
A missing first geometry entry gives a NaN duration in the source, modelled
as none. -/
def eonetDurationDays (now : ℤ) (event : EONETEvent) : Option ℚ :=
  let endMs : ℤ := event.closed.getD now
  (event.geometry.head?).map
    (fun g => ((endMs - g.date : ℤ) : ℚ) / (1000 * 60 * 60 * 24))

/-- Strict greater-than on an optional duration; a missing value compares
false, matching NaN comparison semantics. -/
def optGt (x : Option ℚ) (c : ℚ) : Bool :=
  match x with
  | none => false
  | some v => decide (c < v)

/-- EONETService.calculateSeverity, first variant present in the repository:
volcano and earthquake events are rated on their active duration. -/
def eonetCalculateSeverityV1 (now : ℤ) (event : EONETEvent) : String :=
  let durationDays := eonetDurationDays now event
  let type := mapCategoryToType event.categories
  if type = "volcano" ∨ type = "earthquake" then
    (if optGt durationDays 7 then "critical" else "high")
  else if type = "wildfire" then
    (if optGt durationDays 30 then "critical"
     else if optGt durationDays 14 then "high"
     else if optGt durationDays 7 then "moderate"
     else "low")
  else if optGt durationDays 60 then "critical"
  else if optGt durationDays 30 then "high"
  else if optGt durationDays 14 then "moderate"
  else "low"

/-- EONETService.calculateSeverity, second variant present in the repository:
earthquakes get a fixed conservative rating, independent of duration. -/
def eonetCalculateSeverityV2 (now : ℤ) (event : EONETEvent) : String :=
  let durationDays := eonetDurationDays now event
  let type := mapCategoryToType event.categories
  if type = "volcano" then
    (if optGt durationDays 60 then "high"
     else if optGt durationDays 14 then "moderate"
     else "low")
  else if type = "earthquake" then "moderate"
  else if type = "wildfire" then
    (if optGt durationDays 90 then "high"
     else if optGt durationDays 30 then "moderate"
     else if optGt durationDays 7 then "moderate"
     else "low")
  else if type = "storm" ∨ type = "hurricane" ∨ type = "flood" then
    (if optGt durationDays 21 then "high"
     else if optGt durationDays 7 then "moderate"
     else "moderate")
  else if type = "drought" ∨ type = "heatwave" then
    (if optGt durationDays 120 then "high"
     else if optGt durationDays 60 then "moderate"
     else "moderate")
  else if optGt durationDays 120 then "high"
  else if optGt durationDays 30 then "moderate"
  else "low"

/-! ## EmdatService (spreadsheet normalizer) -/

/-- EmdatRow, restricted to the columns processEmdatData reads. -/
structure EmdatRow where
  disNo : Option String
  eventName : Option String
  disasterType : Option String
  country : Option String
  location : Option String
  latitude : Option ℚ
  longitude : Option ℚ
  startYear : Option ℤ
  startMonth : Option ℤ
  startDay : Option ℤ
  totalAffected : Option ℤ
  totalDeaths : Option ℤ
  deriving DecidableEq

/-- Truthiness of an optional integer: undefined and zero are falsy. -/
def truthyInt : Option ℤ → Bool
  | none => false
  | some n => decide (n ≠ 0)

/-- EmdatService.mapDisasterType: ordered keyword matching. -/
def mapDisasterType (emdatType : Option String) : String :=
  match emdatType with
  | none => "other"
  | some s =>
    if s = "" then "other"
    else
      let type := jsToLower s
      if jsIncludes type "flood" then "flood"
      else if jsIncludes type "wildfire" || jsIncludes type "forest fire" then "wildfire"
      else if jsIncludes type "hurricane" || jsIncludes type "cyclone" ||
        jsIncludes type "typhoon" then "hurricane"
      else if jsIncludes type "drought" then "drought"
      else if jsIncludes type "heat" || jsIncludes type "temperature" then "heatwave"
      else if jsIncludes type "storm" || jsIncludes type "wind" then "storm"
      else if jsIncludes type "earthquake" || jsIncludes type "seismic" then "earthquake"
      else "other"

/-- EmdatService.calculateSeverity: deaths weighted ten-fold plus affected. -/
def emdatCalculateSeverity (affected deaths : Option ℤ) : String :=
  let totalAffected : ℤ := affected.getD 0 + deaths.getD 0 * 10
  if 1000000 ≤ totalAffected then "critical"
  else if 100000 ≤ totalAffected then "high"
  else if 10000 ≤ totalAffected then "moderate"
  else "low"

/-- Proleptic Gregorian day count since the Unix epoch, with JavaScript
month normalization (a month outside 1..12 rolls the year). -/
def daysFromCivil (y m d : ℤ) : ℤ :=
  let months := y * 12 + (m - 1)
  let yn := months.fdiv 12
  let mn := months.emod 12 + 1
  let yAdj := yn - (if mn ≤ 2 then 1 else 0)
  let era := yAdj.fdiv 400
  let yoe := yAdj - era * 400
  let doy := (153 * (mn + (if 2 < mn then -3 else 9)) + 2).fdiv 5 + d - 1
  let doe := yoe * 365 + yoe.fdiv 4 - yoe.fdiv 100 + doy
  era * 146097 + doe - 719468

/-- EmdatService.createDate: the current time when the year is falsy,
otherwise the JavaScript Date constructed from year, month, day, including
the mapping of two-digit years into the 1900s.  The environment timezone
offset is taken as zero. -/
def createDate (now : ℤ) (year month day : Option ℤ) : ℤ :=
  match year with
  | none => now
  | some y =>
    if y = 0 then now
    else
      let yFull := if 0 ≤ y ∧ y ≤ 99 then y + 1900 else y
      let m := match month with | none => 1 | some mv => if mv = 0 then 1 else mv
      let d := match day with | none => 1 | some dv => if dv = 0 then 1 else dv
      daysFromCivil yFull m d * 86400000

/-- EmdatService.generateSummary; fmtInt models toLocaleString. -/
def emdatGenerateSummary (fmtInt : ℤ → String) (row : EmdatRow) : String :=
  let parts : List String :=
    (match row.disasterType with
     | some t => if t ≠ "" then [t ++ " disaster"] else []
     | none => [])
    ++ (if truthyStr row.location then ["in " ++ row.location.getD ""]
        else if truthyStr row.country then ["in " ++ row.country.getD ""] else [])
    ++ (match row.totalAffected with
        | some n => if n ≠ 0 then ["affecting " ++ fmtInt n ++ " people"] else []
        | none => [])
    ++ (match row.totalDeaths with
        | some n => if n ≠ 0 then ["with " ++ fmtInt n ++ " casualties"] else []
        | none => [])
  if parts = [] then "Natural disaster event."
  else String.intercalate " " parts ++ "."

/-- String interpolation of an optional string field, rendering a missing
value as the text undefined, as a JavaScript template literal does. -/
def jsInterp (o : Option String) : String := o.getD "undefined"

/-- EmdatService.processEmdatData: rows whose latitude or longitude is
missing, zero or NaN are dropped; the rest are normalized. -/
def processEmdatData (now : ℤ) (fmtInt : ℤ → String) (data : List EmdatRow) :
    List DisasterLocation :=
  data.enum.filterMap (fun p =>
    let index := p.1
    let row := p.2
    match row.latitude, row.longitude with
    | some lat, some lon =>
      if lat = 0 ∨ lon = 0 then none
      else
        some
          { id :=
              match row.disNo with
              | some s => if s = "" then "emdat-" ++ toString index else s
              | none => "emdat-" ++ toString index
            name :=
              match row.eventName with
              | some nm =>
                if nm = "" then jsInterp row.disasterType ++ " in " ++ jsInterp row.country
                else nm
              | none => jsInterp row.disasterType ++ " in " ++ jsInterp row.country
            type := mapDisasterType row.disasterType
            latitude := lat
            longitude := lon
            date := createDate now row.startYear row.startMonth row.startDay
            severity := emdatCalculateSeverity row.totalAffected row.totalDeaths
            affectedPeople := row.totalAffected.getD 0
            summary := emdatGenerateSummary fmtInt row
            donationLinks := []
            source := some "EM-DAT"
            sourceUrl := none
            imageUrl := none
            magnitude := none
            originalId := none }
    | _, _ => none)

/-! ## Specification-side definitions (written from the words of the spec) -/

/-- Specification table, radius column: category-specific duplicate radius
in kilometers. -/
def specMaxDistanceKm (category : String) : ℚ :=
  if category = "earthquake" then 50
  else if category = "volcano" then 20
  else if category = "wildfire" then 100
  else if category = "hurricane" ∨ category = "storm" then 200
  else if category = "flood" then 100
  else 50

/-- Specification table, window column: category-specific duplicate time
window in hours. -/
def specMaxWindowHours (category : String) : ℚ :=
  if category = "earthquake" then 24
  else if category = "volcano" then 168
  else if category = "wildfire" then 72
  else if category = "hurricane" ∨ category = "storm" then 48
  else if category = "flood" then 72
  else 48

/-- Category enumeration of the data model section of the spec. -/
def validCategories : List String :=
  ["wildfire", "flood", "hurricane", "drought", "heatwave", "storm",
   "earthquake", "volcano", "other"]

/-- Severity enumeration of the data model section of the spec. -/
def validSeverities : List String := ["low", "moderate", "high", "critical"]

/-- Record-level invariants of the data model section of the spec
(identifier non-empty, category and severity in their enumerations, position
in range, occurrence time not more than seven days in the future).  The
batch-level uniqueness of identifiers is not expressible per record. -/
def specIsValid (now : ℤ) (d : DisasterLocation) : Prop :=
  d.id ≠ "" ∧ d.type ∈ validCategories ∧
  |d.latitude| ≤ 90 ∧ |d.longitude| ≤ 180 ∧
  d.date ≤ now + 7 * 24 * 60 * 60 * 1000 ∧ d.severity ∈ validSeverities

instance (now : ℤ) (d : DisasterLocation) : Decidable (specIsValid now d) := by
  unfold specIsValid
  infer_instance

/-- Source trust rank as worded by the spec: seismic feed above natural-event
feed above spreadsheet source, anything else lowest. -/
def specTrustRank (d : DisasterLocation) : Nat :=
  match d.source with
  | some s =>
    if s = "USGS" then 3 else if s = "NASA EONET" then 2
    else if s = "EM-DAT" then 1 else 0
  | none => 0

/-- Information-richness score read literally from the claim: a point for a
present optional field regardless of its value, a point for a non-empty
string regardless of whitespace. -/
def specScoreLiteral (d : DisasterLocation) : Nat :=
  (if d.name ≠ "" then 1 else 0) +
  (if d.summary ≠ "" then 2 else 0) +
  (if 0 < d.affectedPeople then 1 else 0) +
  (if d.magnitude.isSome then 1 else 0) +
  (if d.sourceUrl.isSome then 1 else 0) +
  (if d.imageUrl.isSome then 1 else 0) +
  (if d.donationLinks ≠ [] then 2 else 0) +
  (if 50 < d.summary.length then 1 else 0) +
  (if 100 < d.summary.length then 1 else 0)

/-- Representative choice read literally from the claim, with the literal
presence-based score. -/
def specChooseLiteral (d1 d2 : DisasterLocation) : DisasterLocation :=
  if specTrustRank d2 < specTrustRank d1 then d1
  else if specTrustRank d1 < specTrustRank d2 then d2
  else if specScoreLiteral d2 ≤ specScoreLiteral d1 then d1 else d2

/-- Information-richness score amended to the truthiness semantics of the
code: blank names and narratives, zero magnitudes, empty link strings and
empty relief-link lists score nothing. -/
def specScoreTruthy (d : DisasterLocation) : Nat :=
  List.sum
    [if jsTrim d.name = "" then 0 else 1,
     if jsTrim d.summary = "" then 0 else 2,
     if d.affectedPeople ≤ 0 then 0 else 1,
     if truthyNum d.magnitude then 1 else 0,
     if truthyStr d.sourceUrl then 1 else 0,
     if truthyStr d.imageUrl then 1 else 0,
     if d.donationLinks.length = 0 then 0 else 2,
     if 50 < d.summary.length then 1 else 0,
     if 100 < d.summary.length then 1 else 0]

/-- Representative choice as amended: trust rank first, then the
truthiness-based richness score, exact ties keep the first argument. -/
def specChooseTruthy (d1 d2 : DisasterLocation) : DisasterLocation :=
  if specTrustRank d2 < specTrustRank d1 then d1
  else if specTrustRank d1 < specTrustRank d2 then d2
  else if specScoreTruthy d2 ≤ specScoreTruthy d1 then d1 else d2

/-- Severity thresholds for the seismic source as worded by the spec. -/
def usgsSpecSeverity (magnitude : ℚ) : String :=
  if 8 ≤ magnitude then "critical"
  else if 6 ≤ magnitude then "high"
  else if 5 ≤ magnitude then "moderate"
  else "low"

/-! ## Helper lemmas -/

theorem calculateDistance_self (lat lon : ℚ) :
    calculateDistance lat lon lat lon = 0 := by
  norm_num [calculateDistance, atan2, Real.sqrt_zero, Real.sqrt_one,
    Real.arctan_zero]

theorem calculateTimeDifference_self (t : ℤ) :
    calculateTimeDifference t t = 0 := by
  simp [calculateTimeDifference]

theorem areDuplicates_same_source {d1 d2 : DisasterLocation}
    (h : d1.source = d2.source) : areDuplicates d1 d2 = false := by
  simp [areDuplicates, h]

theorem areDuplicates_same_place {d1 d2 : DisasterLocation}
    (hs : d1.source ≠ d2.source) (ht : d1.type = d2.type)
    (hla : d1.latitude = d2.latitude) (hlo : d1.longitude = d2.longitude)
    (hd : d1.date = d2.date) : areDuplicates d1 d2 = true := by
  have hdist : calculateDistance d1.latitude d1.longitude d2.latitude d2.longitude = 0 := by
    rw [← hla, ← hlo]
    exact calculateDistance_self _ _
  have htime : calculateTimeDifference d1.date d2.date = 0 := by
    rw [← hd]
    exact calculateTimeDifference_self _
  simp only [areDuplicates, if_neg hs, ht, ne_eq, not_true_eq_false,
    if_false, hdist, htime, Bool.and_eq_true, decide_eq_true_eq]
  split_ifs <;> constructor <;> norm_num

/-! ## Concrete records used by witnesses and counterexamples -/

/-- All-blank record used as the default for Option.getD extraction. -/
def blankRecord : DisasterLocation :=
  { id := "", name := "", type := "", latitude := 0, longitude := 0, date := 0,
    severity := "", affectedPeople := 0, summary := "", donationLinks := [],
    source := none, sourceUrl := none, imageUrl := none, magnitude := none,
    originalId := none }

/-- Record satisfying every record-level invariant of the spec. -/
def c5rec : DisasterLocation :=
  { blankRecord with
    id := "emdat-1", name := "Quake", type := "earthquake", latitude := 10,
    longitude := 20, severity := "low", source := some "EM-DAT" }

/-- The same record with only the severity mutated to a value outside the
severity enumeration. -/
def c5mut : DisasterLocation := { c5rec with severity := "catastrophic" }

/-- Record whose only information is a present magnitude of value zero. -/
def c3a : DisasterLocation :=
  { blankRecord with
    id := "a", type := "other", severity := "low", magnitude := some 0 }

/-- Record of equal trust rank whose only information is a non-blank name. -/
def c3b : DisasterLocation :=
  { c3a with id := "b", name := "Named", magnitude := none }

/-! ## C2 -/

/-- C2: the duplicate predicate holds exactly when the source tags differ,
the categories agree, the haversine distance is within the category radius
and the absolute time difference is within the category window, both
inclusively, with the radius and window given by the category table
(earthquake 50 km and 24 h, volcano 20 km and 168 h, wildfire 100 km and
72 h, hurricane and storm 200 km and 48 h, flood 100 km and 72 h, anything
else 50 km and 48 h).  The quoted boundary examples are instances: a 60 km
earthquake pair fails the 50 km radius while 40 km passes, and a wildfire
pair at exactly 72 hours passes the window while any larger gap fails. -/
theorem C2_duplicate_predicate_characterization (d1 d2 : DisasterLocation) :
    areDuplicates d1 d2 = true ↔
      (d1.source ≠ d2.source ∧ d1.type = d2.type ∧
       calculateDistance d1.latitude d1.longitude d2.latitude d2.longitude ≤
         (specMaxDistanceKm d1.type : ℝ) ∧
       calculateTimeDifference d1.date d2.date ≤ specMaxWindowHours d1.type) := by
  by_cases hs : d1.source = d2.source
  · simp [areDuplicates, hs]
  · by_cases ht : d1.type = d2.type
    · simp only [areDuplicates, if_neg hs, ht, ne_eq, not_true_eq_false,
        if_false, Bool.and_eq_true, decide_eq_true_eq, specMaxDistanceKm,
        specMaxWindowHours]
      split_ifs <;> simp_all
    · simp [areDuplicates, hs, ht]

/-! ## C5 -/

/-- C5 counterexample: a record meeting every invariant of the spec stays
valid under the code validator, but so does its mutation whose severity lies
outside the severity enumeration, because the validator never examines the
severity field. -/
theorem C5_counterexample :
    specIsValid 0 c5rec ∧ ¬ specIsValid 0 c5mut ∧
    validateDisaster 0 c5rec = true ∧ validateDisaster 0 c5mut = true := by
  refine ⟨?_, ?_, ?_, ?_⟩ <;> decide

/-- C5 amended: the validator is a pure predicate equivalent to requiring a
non-empty identifier, name and category string, coordinates within the valid
ranges, and an occurrence time at most seven days in the future; it checks
neither membership of the category in its enumeration nor anything about the
severity field. -/
theorem C5_validator_characterization (now : ℤ) (d : DisasterLocation) :
    validateDisaster now d = true ↔
      (d.id ≠ "" ∧ d.name ≠ "" ∧ d.type ≠ "" ∧
       |d.latitude| ≤ 90 ∧ |d.longitude| ≤ 180 ∧
       d.date ≤ now + 7 * 24 * 60 * 60 * 1000) := by
  simp only [validateDisaster]
  split_ifs with h1 h2 h3
  · simp only [false_iff]
    rintro ⟨hid, hname, htype, -⟩
    rcases h1 with h | h | h <;> simp_all
  · simp only [false_iff]
    rintro ⟨-, -, -, hla, hlo, -⟩
    rcases h2 with h | h <;> linarith
  · simp only [false_iff]
    rintro ⟨-, -, -, -, -, hdate⟩
    linarith
  · simp only [true_iff]
    push_neg at h1 h2 h3
    exact ⟨h1.1, h1.2.1, h1.2.2, h2.1, h2.2, h3⟩

/-! ## C3 -/

/-- C3 counterexample: with equal trust rank, the record whose magnitude is
present with value zero ties on the literal presence-based score with a
record holding only a non-blank name, so the claim keeps the first record,
while the code scores the zero magnitude as absent and returns the second
record. -/
theorem C3_counterexample :
    chooseBetterRecord c3a c3b = c3b ∧ specChooseLiteral c3a c3b = c3a ∧
    c3a ≠ c3b := by
  refine ⟨?_, ?_, ?_⟩ <;> decide

/-- C3 amended: representative selection compares trust rank first (seismic
feed over natural-event feed over spreadsheet source over anything else),
then an information-richness score in which name and narrative must be
non-blank after trimming, magnitude must be present and non-zero, links must
be present and non-empty, and relief links non-empty; exact ties keep the
first argument. -/
theorem C3_choose_better_record_characterization (d1 d2 : DisasterLocation) :
    chooseBetterRecord d1 d2 = specChooseTruthy d1 d2 := by
  have hrank : ∀ d : DisasterLocation,
      sourcePriorityOf (d.source.getD "") = specTrustRank d := by
    intro d
    rcases hds : d.source with - | s <;>
      simp [sourcePriorityOf, specTrustRank, hds]
  have hscore : ∀ d : DisasterLocation,
      calculateInformationScore d = specScoreTruthy d := by
    intro d
    simp only [calculateInformationScore, specScoreTruthy, List.sum_cons,
      List.sum_nil, add_zero]
    have e1 : (if jsTrim d.name ≠ "" then 1 else 0) =
        (if jsTrim d.name = "" then 0 else 1) := by
      by_cases h : jsTrim d.name = "" <;> simp [h]
    have e2 : (if jsTrim d.summary ≠ "" then 2 else 0) =
        (if jsTrim d.summary = "" then 0 else 2) := by
      by_cases h : jsTrim d.summary = "" <;> simp [h]
    have e3 : (if 0 < d.affectedPeople then 1 else 0) =
        (if d.affectedPeople ≤ 0 then 0 else 1) := by
      by_cases h : 0 < d.affectedPeople
      · rw [if_pos h, if_neg (by omega)]
      · rw [if_neg h, if_pos (by omega)]
    have e7 : (if d.donationLinks ≠ [] then 2 else 0) =
        (if d.donationLinks.length = 0 then 0 else 2) := by
      by_cases h : d.donationLinks = [] <;> simp [h]
    rw [e1, e2, e3, e7]
    ring
  simp only [chooseBetterRecord, specChooseTruthy, hrank, hscore]
  by_cases h : specTrustRank d1 = specTrustRank d2
  · rw [h]
    simp [lt_irrefl]
  · by_cases h2 : specTrustRank d2 < specTrustRank d1
    · simp [h, h2]
    · have h3 : specTrustRank d1 < specTrustRank d2 := by omega
      simp [h, h2, h3, asymm h3]

/-! ## C8 -/

/-- C8: for every magnitude the seismic severity function realizes exactly
the thresholds of the spec (at least 8 critical, at least 6 high, at least 5
moderate, otherwise low; the extra 7.0 and 5.5 branches of the code collapse
into these), and every record the seismic normalizer emits carries that
severity and an affected-people count of zero. -/
theorem C8_usgs_severity_and_impact :
    (∀ magnitude : ℚ, usgsCalculateSeverity magnitude = usgsSpecSeverity magnitude) ∧
    (∀ (fmtDate : ℤ → String) (fmtNum : ℚ → String)
       (feature : USGSEarthquakeFeature) (r : DisasterLocation),
       usgsConvertToDisasterLocation fmtDate fmtNum feature = some r →
       r.severity = usgsSpecSeverity feature.properties.mag ∧
       r.affectedPeople = 0) := by
  have hsev : ∀ m : ℚ, usgsCalculateSeverity m = usgsSpecSeverity m := by
    intro m
    simp only [usgsCalculateSeverity, usgsSpecSeverity]
    split_ifs <;> first | rfl | linarith
  refine ⟨hsev, ?_⟩
  intro fmtDate fmtNum feature r h
  by_cases hv : usgsIsValidEarthquake feature
  · simp only [usgsConvertToDisasterLocation, if_pos hv] at h
    rcases hco : feature.coordinates with - | ⟨lon, co1⟩
    · rw [hco] at h
      simp at h
    · rcases co1 with - | ⟨lat, rest⟩
      · rw [hco] at h
        simp at h
      · rw [hco] at h
        have h' := Option.some.inj h
        rw [← h']
        exact ⟨hsev _, rfl⟩
  · simp [usgsConvertToDisasterLocation, hv] at h

/-- Trivial date renderer standing in for environment-dependent formatting. -/
def fmtNoneInt : ℤ → String := fun _ => ""

/-- Trivial number renderer standing in for environment-dependent formatting. -/
def fmtNoneRat : ℚ → String := fun _ => ""

/-- Concrete valid seismic feature of magnitude 6. -/
def usgsFeat0 : USGSEarthquakeFeature :=
  { id := "us1000"
    coordinates := [30, 10, 5]
    properties :=
      { mag := 6, place := "Offshore", time := 1000,
        url := "https://example.org/eq", felt := none, alert := none,
        tsunami := 0, title := "M 6.0 - Offshore" } }

/-- The record the seismic normalizer emits for usgsFeat0. -/
def usgsRec0 : DisasterLocation :=
  (usgsConvertToDisasterLocation fmtNoneInt fmtNoneRat usgsFeat0).getD blankRecord

/-- C8 witness at the concrete magnitude-6 feature. -/
theorem C8_witness :
    usgsRec0.severity = usgsSpecSeverity usgsFeat0.properties.mag ∧
    usgsRec0.affectedPeople = 0 :=
  C8_usgs_severity_and_impact.2 fmtNoneInt fmtNoneRat usgsFeat0 usgsRec0 (by decide)

/-! ## C9 -/

/-- Category entry whose title resolves to the earthquake category. -/
def eonetQuakeCat : EONETCategory := { id := "earthquakes", title := "Earthquakes" }

/-- Point geometry entry dated at the given instant. -/
def eonetGeomAt (t : ℤ) : EONETGeometry :=
  { magnitudeValue := none, magnitudeUnit := none, date := t, type := "Point",
    coordinates := EONETCoordinates.point [10, 20] }

/-- Open earthquake event that started one day before the processing time 0. -/
def c9e1 : EONETEvent :=
  { id := "EONET_1", title := "Quake A", description := none,
    link := "https://example.org/e1", closed := none,
    categories := [eonetQuakeCat], sources := [],
    geometry := [eonetGeomAt (-86400000)] }

/-- The same event started eight days before the processing time 0. -/
def c9e2 : EONETEvent :=
  { c9e1 with id := "EONET_2", geometry := [eonetGeomAt (-691200000)] }

/-- C9 counterexample: under the first calculateSeverity variant in the
repository, two earthquake events that differ only in their active duration
(one day against eight days) get different severities, so the severity of an
earthquake event is not a single fixed value independent of duration. -/
theorem C9_counterexample :
    mapCategoryToType c9e1.categories = "earthquake" ∧
    mapCategoryToType c9e2.categories = "earthquake" ∧
    eonetCalculateSeverityV1 0 c9e1 = "high" ∧
    eonetCalculateSeverityV1 0 c9e2 = "critical" := by
  have hc : mapCategoryToType [eonetQuakeCat] = "earthquake" := by decide
  refine ⟨hc, hc, ?_, ?_⟩
  · simp only [eonetCalculateSeverityV1, eonetDurationDays, c9e1, eonetGeomAt,
      List.head?_cons, Option.getD_none, Option.map_some, optGt, hc]
    norm_num
  · simp only [eonetCalculateSeverityV1, eonetDurationDays, c9e2, c9e1,
      eonetGeomAt, List.head?_cons, Option.getD_none, Option.map_some, optGt, hc]
    norm_num

/-- C9 amended: under the second (appended) calculateSeverity variant, every
event whose inferred category is earthquake gets the fixed conservative
severity moderate, independent of its duration; under the first variant the
severity depends on the duration (critical past seven days, else high). -/
theorem C9_eonet_earthquake_fixed_severity (now : ℤ) (event : EONETEvent)
    (h : mapCategoryToType event.categories = "earthquake") :
    eonetCalculateSeverityV2 now event = "moderate" := by
  simp [eonetCalculateSeverityV2, h]

/-- C9 witness at the concrete one-day earthquake event. -/
theorem C9_witness : eonetCalculateSeverityV2 0 c9e1 = "moderate" :=
  C9_eonet_earthquake_fixed_severity 0 c9e1 (by decide)

/-! ## C10 -/

/-- C10: every record emitted by the spreadsheet normalizer has non-zero
latitude and non-zero longitude, because rows whose latitude or longitude is
missing or exactly zero are dropped by the coordinate filter. -/
theorem C10_emdat_drops_zero_coordinates (now : ℤ) (fmtInt : ℤ → String)
    (data : List EmdatRow) (d : DisasterLocation)
    (h : d ∈ processEmdatData now fmtInt data) :
    d.latitude ≠ 0 ∧ d.longitude ≠ 0 := by
  simp only [processEmdatData, List.mem_filterMap] at h
  obtain ⟨p, -, hp⟩ := h
  rcases hlat : p.2.latitude with - | lat
  · rw [hlat] at hp
    simp at hp
  · rcases hlon : p.2.longitude with - | lon
    · rw [hlat, hlon] at hp
      simp at hp
    · rw [hlat, hlon] at hp
      by_cases hz : lat = 0 ∨ lon = 0
      · simp only [if_pos hz] at hp
        exact absurd hp (by simp)
      · simp only [if_neg hz] at hp
        push_neg at hz
        have h' := Option.some.inj hp
        rw [← h']
        exact ⟨hz.1, hz.2⟩

/-- Spreadsheet row with ordinary non-zero coordinates. -/
def emdatRow0 : EmdatRow :=
  { disNo := some "2004-0001", eventName := some "Test Event",
    disasterType := some "Flood", country := some "Testland", location := none,
    latitude := some 5, longitude := some 6, startYear := some 2004,
    startMonth := some 3, startDay := some 2, totalAffected := some 100,
    totalDeaths := none }

/-- The record the spreadsheet normalizer emits for emdatRow0. -/
def emdatRec0 : DisasterLocation :=
  (processEmdatData 0 fmtNoneInt [emdatRow0]).headD blankRecord

/-- C10 witness at the concrete row. -/
theorem C10_witness : emdatRec0.latitude ≠ 0 ∧ emdatRec0.longitude ≠ 0 :=
  C10_emdat_drops_zero_coordinates 0 fmtNoneInt [emdatRow0] emdatRec0 (by decide)

/-! ## C7 -/

/-- C7: the date values of the merged output are non-increasing: the merger
sorts the unique representatives by occurrence time, most recent first. -/
theorem C7_output_sorted_by_date_descending
    (disasterArrays : List (List DisasterLocation)) :
    (mergeDisasters disasterArrays).disasters.Pairwise
      (fun a b => b.date ≤ a.date) := by
  have htrans : ∀ a b c : DisasterLocation,
      (fun a b : DisasterLocation => decide (b.date ≤ a.date)) a b = true →
      (fun a b : DisasterLocation => decide (b.date ≤ a.date)) b c = true →
      (fun a b : DisasterLocation => decide (b.date ≤ a.date)) a c = true := by
    intro a b c hab hbc
    simp only [decide_eq_true_eq] at *
    omega
  have htotal : ∀ a b : DisasterLocation,
      ((fun a b : DisasterLocation => decide (b.date ≤ a.date)) a b ||
       (fun a b : DisasterLocation => decide (b.date ≤ a.date)) b a) = true := by
    intro a b
    simp only [Bool.or_eq_true, decide_eq_true_eq]
    omega
  have h := @List.sorted_mergeSort DisasterLocation
    (fun a b => decide (b.date ≤ a.date)) htrans htotal
    ((mergeAux disasterArrays.flatten []).1)
  exact h.imp (fun hab => of_decide_eq_true hab)

/-! ## C6 -/

/-- The all-zero statistics record. -/
def zeroStats : MergerStats :=
  { totalEvents := 0, duplicatesRemoved := 0, sourceBreakdown := [],
    typeBreakdown := [] }

/-- C6: merging three empty source lists yields an empty record list and
all-zero statistics with empty breakdowns, and the same holds whenever every
input record is rejected by the validator; the merge itself is a total
function, so no input beyond that raises. -/
theorem C6_empty_inputs_zero_stats (now : ℤ) :
    mergeSources now [] [] [] = { disasters := [], stats := zeroStats } ∧
    ∀ l1 l2 l3 : List DisasterLocation,
      (∀ d ∈ l1, validateDisaster now d = false) →
      (∀ d ∈ l2, validateDisaster now d = false) →
      (∀ d ∈ l3, validateDisaster now d = false) →
      mergeSources now l1 l2 l3 = { disasters := [], stats := zeroStats } := by
  have hgen : ∀ l1 l2 l3 : List DisasterLocation,
      (∀ d ∈ l1, validateDisaster now d = false) →
      (∀ d ∈ l2, validateDisaster now d = false) →
      (∀ d ∈ l3, validateDisaster now d = false) →
      mergeSources now l1 l2 l3 = { disasters := [], stats := zeroStats } := by
    intro l1 l2 l3 h1 h2 h3
    have e1 : cleanDisasters now l1 = [] := by
      simp only [cleanDisasters, List.filter_eq_nil_iff]
      intro a ha
      simp [h1 a ha]
    have e2 : cleanDisasters now l2 = [] := by
      simp only [cleanDisasters, List.filter_eq_nil_iff]
      intro a ha
      simp [h2 a ha]
    have e3 : cleanDisasters now l3 = [] := by
      simp only [cleanDisasters, List.filter_eq_nil_iff]
      intro a ha
      simp [h3 a ha]
    simp only [mergeSources, e1, e2, e3]
    simp [mergeDisasters, mergeAux, zeroStats]
  exact ⟨hgen [] [] [] (by simp) (by simp) (by simp), hgen⟩

/-- C6 witness: a single invalid record (empty identifier) in the first
source is filtered out and the merge returns the empty result. -/
theorem C6_witness :
    mergeSources 0 [blankRecord] [] [] = { disasters := [], stats := zeroStats } :=
  (C6_empty_inputs_zero_stats 0).2 [blankRecord] [] []
    (by decide) (by simp) (by simp)

/-! ## Lemmas on the merge loop -/

theorem contains_eq_decide_mem (l : List String) (x : String) :
    l.contains x = decide (x ∈ l) := List.elem_eq_mem x l

theorem contains_eq_true_iff {l : List String} {x : String} :
    l.contains x = true ↔ x ∈ l := by
  rw [contains_eq_decide_mem, decide_eq_true_eq]

theorem contains_eq_false_iff {l : List String} {x : String} :
    l.contains x = false ↔ x ∉ l := by
  rw [contains_eq_decide_mem]
  simp

/-- The ids collected by the anchor scan are the ids of the unprocessed
records that pairwise-duplicate the anchor, in order; in particular they do
not depend on the running best record. -/
theorem scanDuplicates_snd (current : DisasterLocation)
    (rest : List DisasterLocation) (processed : List String) :
    ∀ best, (scanDuplicates current rest processed best).2 =
      (rest.filter
        (fun d => !(processed.contains d.id) && areDuplicates current d)).map
        (fun d => d.id) := by
  induction rest with
  | nil =>
    intro best
    rfl
  | cons d ds ih =>
    intro best
    simp only [scanDuplicates, List.filter_cons]
    by_cases h1 : d.id ∈ processed
    · have h1c : processed.contains d.id = true := contains_eq_true_iff.mpr h1
      simp [h1c, h1, ih]
    · have h1c : processed.contains d.id = false := contains_eq_false_iff.mpr h1
      by_cases h2 : areDuplicates current d = true
      · simp [h1c, h1, h2, ih]
      · have h2f : areDuplicates current d = false := eq_false_of_ne_true h2
        simp [h1c, h1, h2f, ih]

/-- Records whose ids are all already processed contribute nothing. -/
theorem mergeAux_all_processed (l : List DisasterLocation) :
    ∀ processed : List String,
    (∀ d ∈ l, processed.contains d.id = true) →
    mergeAux l processed = ([], 0) := by
  induction l with
  | nil =>
    intro processed _
    rfl
  | cons d ds ih =>
    intro processed h
    have hd := h d (List.mem_cons_self d ds)
    simp only [mergeAux, hd, if_true]
    exact ih processed (fun d2 hd2 => h d2 (List.mem_cons_of_mem d hd2))

/-- Length of the deduplicated list for a two-block input: if the records of
the first block never duplicate each other, no id repeats across the input,
and every record of the second block is either already processed or
duplicates some record of the first block, then each first-block record
anchors exactly one cluster and every second-block record is absorbed, so
the output has one record per first-block record. -/
theorem mergeAux_pairwise_length :
    ∀ (LA LB : List DisasterLocation) (processed : List String),
    (∀ a ∈ LA, processed.contains a.id = false) →
    ((LA ++ LB).map (fun d => d.id)).Nodup →
    (∀ a ∈ LA, ∀ a2 ∈ LA, areDuplicates a a2 = false) →
    (∀ b ∈ LB, processed.contains b.id = true ∨ ∃ a ∈ LA, areDuplicates a b = true) →
    (mergeAux (LA ++ LB) processed).1.length = LA.length := by
  intro LA
  induction LA with
  | nil =>
    intro LB processed _ _ _ hinv
    simp only [List.nil_append]
    have hall : ∀ d ∈ LB, processed.contains d.id = true := by
      intro b hb
      rcases hinv b hb with h | ⟨a, ha, -⟩
      · exact h
      · exact absurd ha (List.not_mem_nil a)
    rw [mergeAux_all_processed LB processed hall]
  | cons A LA ih =>
    intro LB processed hA hnd hAA hinv
    have hAup : processed.contains A.id = false := hA A (List.mem_cons_self A LA)
    have hndc : (A.id :: (LA ++ LB).map (fun d => d.id)).Nodup := by
      simpa using hnd
    have hndt : ((LA ++ LB).map (fun d => d.id)).Nodup := hndc.of_cons
    have hAnotin : A.id ∉ (LA ++ LB).map (fun d => d.id) :=
      (List.nodup_cons.mp hndc).1
    have hinj := List.inj_on_of_nodup_map hndt
    have hs2 := scanDuplicates_snd A (LA ++ LB) processed
    set s2 : List String := ((LA ++ LB).filter
      (fun d => !(processed.contains d.id) && areDuplicates A d)).map
      (fun d => d.id) with hs2def
    have hs2mem : ∀ x : String, x ∈ s2 →
        ∃ d ∈ LA ++ LB, d.id = x ∧ processed.contains d.id = false ∧
          areDuplicates A d = true := by
      intro x hx
      rw [hs2def] at hx
      obtain ⟨d, hdf, hdx⟩ := List.mem_map.mp hx
      obtain ⟨hdm, hdc⟩ := List.mem_filter.mp hdf
      obtain ⟨hnp, hdup⟩ := (Bool.and_eq_true _ _).mp hdc
      refine ⟨d, hdm, hdx, ?_, hdup⟩
      cases hpc : processed.contains d.id
      · rfl
      · rw [hpc] at hnp
        cases hnp
    have hs2in : ∀ b : DisasterLocation, b ∈ LA ++ LB →
        processed.contains b.id = false → areDuplicates A b = true →
        b.id ∈ s2 := by
      intro b hbm hbp hdup
      rw [hs2def]
      refine List.mem_map.mpr ⟨b, List.mem_filter.mpr ⟨hbm, ?_⟩, rfl⟩
      rw [Bool.and_eq_true, hbp]
      exact ⟨rfl, hdup⟩
    have hA2 : ∀ a ∈ LA, (processed ++ A.id :: s2).contains a.id = false := by
      intro a ha
      rw [contains_eq_false_iff]
      intro hmem
      rcases List.mem_append.mp hmem with hp | hc
      · exact absurd hp (contains_eq_false_iff.mp (hA a (List.mem_cons_of_mem A ha)))
      · rcases List.mem_cons.mp hc with heq | hs
        · exact hAnotin (heq ▸ List.mem_map_of_mem (fun d => d.id)
            (List.mem_append_left LB ha))
        · obtain ⟨d, hdm, hdx, -, hdup⟩ := hs2mem a.id hs
          have hda : d = a := hinj hdm (List.mem_append_left LB ha) hdx
          rw [hda] at hdup
          have := hAA A (List.mem_cons_self A LA) a (List.mem_cons_of_mem A ha)
          rw [this] at hdup
          cases hdup
    have hAA2 : ∀ a ∈ LA, ∀ a2 ∈ LA, areDuplicates a a2 = false :=
      fun a ha a2 ha2 =>
        hAA a (List.mem_cons_of_mem A ha) a2 (List.mem_cons_of_mem A ha2)
    have hinv2 : ∀ b ∈ LB, (processed ++ A.id :: s2).contains b.id = true ∨
        ∃ a ∈ LA, areDuplicates a b = true := by
      intro b hb
      rcases hinv b hb with hbp | ⟨a, ha, hdup⟩
      · left
        rw [contains_eq_true_iff]
        exact List.mem_append_left _ (contains_eq_true_iff.mp hbp)
      · rcases List.mem_cons.mp ha with rfl | haLA
        · by_cases hbp : processed.contains b.id = true
          · left
            rw [contains_eq_true_iff]
            exact List.mem_append_left _ (contains_eq_true_iff.mp hbp)
          · left
            rw [contains_eq_true_iff]
            refine List.mem_append_right _ (List.mem_cons_of_mem _ ?_)
            exact hs2in b (List.mem_append_right LA hb)
              (eq_false_of_ne_true hbp) hdup
        · right
          exact ⟨a, haLA, hdup⟩
    have hrec := ih LB (processed ++ A.id :: s2) hA2 hndt hAA2 hinv2
    rw [List.cons_append]
    simp only [mergeAux, hAup, Bool.false_eq_true, if_false, List.length_cons]
    rw [hs2 A, hrec]

theorem forall₂_mem_right {α β : Type _} {R : α → β → Prop} :
    ∀ {l1 : List α} {l2 : List β}, List.Forall₂ R l1 l2 →
      ∀ b ∈ l2, ∃ a ∈ l1, R a b := by
  intro l1 l2 h
  induction h with
  | nil =>
    intro b hb
    exact absurd hb (List.not_mem_nil b)
  | cons hr hf ih =>
    intro b hb
    rcases List.mem_cons.mp hb with rfl | hb2
    · exact ⟨_, List.mem_cons_self _ _, hr⟩
    · obtain ⟨a, ha, har⟩ := ih b hb2
      exact ⟨a, List.mem_cons_of_mem _ ha, har⟩

/-! ## C4 -/

/-- C4: merging a list of valid records under one source tag with a
relabelled copy of it (same categories, positions and times, a different
tag, fresh identifiers) and an empty third list collapses each record with
its copy, leaving exactly one representative per original record: the output
length is the length of the original list, never twice it. -/
theorem C4_merge_with_relabelled_copy (now : ℤ) (LA LB : List DisasterLocation)
    (sA sB : Option String)
    (hpair : List.Forall₂ (fun a b => a.type = b.type ∧ a.latitude = b.latitude ∧
      a.longitude = b.longitude ∧ a.date = b.date) LA LB)
    (hsA : ∀ a ∈ LA, a.source = sA)
    (hsB : ∀ b ∈ LB, b.source = sB)
    (hAB : sA ≠ sB)
    (hnd : ((LA ++ LB).map (fun d => d.id)).Nodup)
    (hvalid : ∀ d ∈ LA ++ LB, validateDisaster now d = true) :
    (mergeSources now LA LB []).disasters.length = LA.length := by
  have hcleanA : cleanDisasters now LA = LA :=
    List.filter_eq_self.mpr (fun a ha => hvalid a (List.mem_append_left LB ha))
  have hcleanB : cleanDisasters now LB = LB :=
    List.filter_eq_self.mpr (fun b hb => hvalid b (List.mem_append_right LA hb))
  have hAA : ∀ a ∈ LA, ∀ a2 ∈ LA, areDuplicates a a2 = false := by
    intro a ha a2 ha2
    exact areDuplicates_same_source (by rw [hsA a ha, hsA a2 ha2])
  have hinv : ∀ b ∈ LB, (([] : List String)).contains b.id = true ∨
      ∃ a ∈ LA, areDuplicates a b = true := by
    intro b hb
    right
    obtain ⟨a, ha, hR⟩ := forall₂_mem_right hpair b hb
    refine ⟨a, ha, areDuplicates_same_place ?_ hR.1 hR.2.1 hR.2.2.1 hR.2.2.2⟩
    rw [hsA a ha, hsB b hb]
    exact hAB
  have hA0 : ∀ a ∈ LA, (([] : List String)).contains a.id = false := by
    intro a _
    rfl
  have hlen := mergeAux_pairwise_length LA LB [] hA0 hnd hAA hinv
  have hms : mergeSources now LA LB [] = mergeDisasters [LA, LB, []] := by
    simp only [mergeSources]
    rw [hcleanA, hcleanB]
    rfl
  have hd : (mergeDisasters [LA, LB, []]).disasters =
      ((mergeAux ([LA, LB, []] : List (List DisasterLocation)).flatten []).1).mergeSort
        (fun a b => decide (b.date ≤ a.date)) := rfl
  have hflat : ([LA, LB, []] : List (List DisasterLocation)).flatten = LA ++ LB := by
    simp
  rw [hms, hd, hflat, List.length_mergeSort, hlen]

/-- Original record under source tag A. -/
def c4a : DisasterLocation :=
  { blankRecord with
    id := "a1", name := "Event", type := "earthquake", latitude := 1,
    longitude := 2, severity := "low", source := some "A" }

/-- Its relabelled copy under source tag B with a fresh identifier. -/
def c4b : DisasterLocation := { c4a with id := "b1", source := some "B" }

/-- C4 witness: a one-record list and its relabelled copy merge into one. -/
theorem C4_witness : (mergeSources 0 [c4a] [c4b] []).disasters.length = 1 :=
  C4_merge_with_relabelled_copy 0 [c4a] [c4b] (some "A") (some "B")
    (List.Forall₂.cons ⟨rfl, rfl, rfl, rfl⟩ List.Forall₂.nil)
    (by decide) (by decide) (by decide) (by decide) (by decide)

/-! ## C1 -/

/-- Evaluation of the merge loop on a three-record chain: B duplicates the
anchor A and is absorbed, C is compared against the anchor A only, fails,
and later anchors its own cluster. -/
theorem mergeAux_three (A B C : DisasterLocation)
    (hab : areDuplicates A B = true) (hac : areDuplicates A C = false)
    (hca : C.id ≠ A.id) (hcb : C.id ≠ B.id) :
    mergeAux [A, B, C] [] = ([chooseBetterRecord A B, C], 1) := by
  simp [mergeAux, scanDuplicates, hab, hac, hca, hcb]

/-- C1 amended: for a chain where B duplicates A, C duplicates B but C does
not duplicate A (identifiers distinct), the merger produces two clusters,
one holding A and B and one holding C alone: the duplicate comparisons are
made strictly against the original anchor record, not against the evolving
best representative. -/
theorem C1_chain_splits_at_anchor (A B C : DisasterLocation)
    (hab : areDuplicates A B = true) (_hbc : areDuplicates B C = true)
    (hac : areDuplicates A C = false)
    (hca : C.id ≠ A.id) (hcb : C.id ≠ B.id) :
    (mergeDisasters [[A, B, C]]).disasters.length = 2 := by
  have h3 := mergeAux_three A B C hab hac hca hcb
  have hd : (mergeDisasters [[A, B, C]]).disasters =
      ((mergeAux ([[A, B, C]] : List (List DisasterLocation)).flatten []).1).mergeSort
        (fun a b => decide (b.date ≤ a.date)) := rfl
  have hflat : ([[A, B, C]] : List (List DisasterLocation)).flatten = [A, B, C] := by
    simp
  rw [hd, hflat, List.length_mergeSort, h3]
  rfl

/-- Spreadsheet-sourced earthquake record at a fixed place and time. -/
def c1A : DisasterLocation :=
  { blankRecord with
    id := "a", name := "A", type := "earthquake", latitude := 3,
    longitude := 4, severity := "low", source := some "EM-DAT" }

/-- Seismic-sourced record at the same place and time. -/
def c1B : DisasterLocation := { c1A with id := "b", name := "B", source := some "USGS" }

/-- Second spreadsheet-sourced record at the same place and time. -/
def c1C : DisasterLocation := { c1A with id := "c", name := "C" }

/-- C1 counterexample: c1B duplicates both c1A and c1C, c1A and c1C do not
duplicate each other (same source tag), yet the merger produces two output
records, not the single cluster the claim asserts, because record c1C is
compared against the original anchor c1A rather than the evolving best
representative c1B. -/
theorem C1_counterexample :
    areDuplicates c1A c1B = true ∧ areDuplicates c1B c1C = true ∧
    areDuplicates c1A c1C = false ∧
    (mergeDisasters [[c1A, c1B, c1C]]).disasters.length = 2 ∧
    (mergeDisasters [[c1A, c1B, c1C]]).disasters.length ≠ 1 := by
  have hab : areDuplicates c1A c1B = true :=
    areDuplicates_same_place (by decide) rfl rfl rfl rfl
  have hbc : areDuplicates c1B c1C = true :=
    areDuplicates_same_place (by decide) rfl rfl rfl rfl
  have hac : areDuplicates c1A c1C = false := areDuplicates_same_source rfl
  have h3 := mergeAux_three c1A c1B c1C hab hac (by decide) (by decide)
  have hd : (mergeDisasters [[c1A, c1B, c1C]]).disasters =
      ((mergeAux ([[c1A, c1B, c1C]] : List (List DisasterLocation)).flatten []).1).mergeSort
        (fun a b => decide (b.date ≤ a.date)) := rfl
  have hflat : ([[c1A, c1B, c1C]] : List (List DisasterLocation)).flatten =
      [c1A, c1B, c1C] := by
    simp
  have hlen : (mergeDisasters [[c1A, c1B, c1C]]).disasters.length = 2 := by
    rw [hd, hflat, List.length_mergeSort, h3]
    rfl
  exact ⟨hab, hbc, hac, hlen, by rw [hlen]; omega⟩

/-- C1 witness for the amended theorem, at the same concrete chain. -/
theorem C1_witness : (mergeDisasters [[c1A, c1B, c1C]]).disasters.length = 2 :=
  C1_chain_splits_at_anchor c1A c1B c1C
    (areDuplicates_same_place (by decide) rfl rfl rfl rfl)
    (areDuplicates_same_place (by decide) rfl rfl rfl rfl)
    (areDuplicates_same_source rfl) (by decide) (by decide)
